import Mathlib

/-!
Verification of the IPO-Readiness-PDF-Analyzer backend.

This file gives a shallow embedding of the backend's chat service
(`backend/app/chat_service.py`), analyzer scoring helpers
(`backend/app/ipo_analyzer.py`) and the `/analyze-pdf` and `/chat`
endpoint error handling (`backend/app/main.py`), and proves or refutes
the frozen claims about them.

External LLM calls are modelled as oracle inputs (`Except Unit (Option String)`:
an exception, or the returned `response.text`, which may be `None`).
Python dictionaries keyed by strings are modelled as association lists,
`datetime.now()` as a `Nat` supplied by the oracle, and `uuid.uuid4()` as
id strings supplied by the oracle.  Python `float` is modelled as `ℚ`.

All string primitives are implemented by structural recursion on the
character list so that concrete runs reduce in the kernel.
-/

/-! ## Python string primitives

Faithful models of the Python string operations used by the backend:
`in` (substring test), `str.strip()`, `str.lstrip(chars)`,
`str.startswith(tuple)`, `str.lower()`, `str.split(sep)`, `sep.join(...)`. -/

/-- Python whitespace characters recognised by `str.strip()`. -/
def pyIsSpace (c : Char) : Bool :=
  c = ' ' || c = '\t' || c = '\n' || c = '\r' || c = '\x0b' || c = '\x0c'

/-- Whether `needle` is a prefix of `haystack` (on character lists). -/
def charsStart (needle haystack : List Char) : Bool :=
  match needle, haystack with
  | [], _ => true
  | _ :: _, [] => false
  | a :: as, b :: bs => a = b && charsStart as bs

/-- Whether `needle` occurs as a contiguous substring of `haystack` (on character lists). -/
def charsHave (haystack needle : List Char) : Bool :=
  match haystack with
  | [] => needle.isEmpty
  | _ :: rest => charsStart needle haystack || charsHave rest needle

/-- Python `needle in haystack` on strings. -/
def strHas (haystack needle : String) : Bool :=
  charsHave haystack.toList needle.toList

/-- Python `s.lower()`. -/
def strLower (s : String) : String :=
  ⟨s.toList.map Char.toLower⟩

/-- Python `s == ""` / falsity of a string. -/
def strIsEmpty (s : String) : Bool :=
  s.toList.isEmpty

/-- Python `s.strip()`: remove leading and trailing whitespace. -/
def pyStrip (s : String) : String :=
  ⟨((s.toList.dropWhile pyIsSpace).reverse.dropWhile pyIsSpace).reverse⟩

/-- Python `s.lstrip(chars)`: remove leading characters drawn from `chars`. -/
def pyLstrip (chars : List Char) (s : String) : String :=
  ⟨s.toList.dropWhile (fun c => chars.contains c)⟩

/-- Python `s.startswith(p)` for a single prefix `p`. -/
def strStarts (s p : String) : Bool :=
  charsStart p.toList s.toList

/-- Python `s.startswith(tuple)`. -/
def startsAny (s : String) (ps : List String) : Bool :=
  ps.any (fun p => strStarts s p)

/-- Python `s.endswith(p)`. -/
def strEnds (s p : String) : Bool :=
  charsStart p.toList.reverse s.toList.reverse

/-- Split a character list at every occurrence of `sep`. -/
def splitOnChar (sep : Char) : List Char → List (List Char)
  | [] => [[]]
  | c :: rest =>
    match splitOnChar sep rest with
    | [] => [[]]
    | h :: t => if c = sep then [] :: h :: t else (c :: h) :: t

/-- Python `s.split(sep)` for a one-character separator. -/
def pySplit (s : String) (sep : Char) : List String :=
  (splitOnChar sep s.toList).map (fun l => ⟨l⟩)

/-- Python `sep.join(parts)`. -/
def pyJoin (sep : String) : List String → String
  | [] => ""
  | [x] => x
  | x :: y :: rest => x ++ sep ++ pyJoin sep (y :: rest)

/-! ## `ChatService._extract_list_from_response` -/

/-- The tuple of list-item markers in `_extract_list_from_response`. -/
def listItemMarks : List String := ["-", "•", "*", "1.", "2.", "3.", "4.", "5."]

/-- The tuple of stop words in `_extract_list_from_response`. -/
def sectionStopWords : List String := ["Key", "Important", "Main", "Summary"]

/-- The character set of the `lstrip` call in `_extract_list_from_response`. -/
def bulletChars : List Char := "-•*123456789. ".toList

/-- The `for line in lines` loop of `_extract_list_from_response`, with the
`in_section` flag as explicit state.  Returning `[]` models `break`. -/
def extractListLoop (sec : String) : List String → Bool → List String
  | [], _ => []
  | line :: rest, inSection =>
    if strHas (strLower line) (strLower sec) then
      extractListLoop sec rest true
    else if inSection && !(strIsEmpty (pyStrip line)) then
      if startsAny (pyStrip line) listItemMarks then
        let item := pyStrip (pyLstrip bulletChars (pyStrip line))
        if !(strIsEmpty item) then item :: extractListLoop sec rest inSection
        else extractListLoop sec rest inSection
      else if !(startsAny (pyStrip line) sectionStopWords) then
        []
      else
        extractListLoop sec rest inSection
    else
      extractListLoop sec rest inSection

/-- Model of `ChatService._extract_list_from_response(response, section)`. -/
def extract_list_from_response (response sec : String) : List String :=
  (extractListLoop sec (pySplit response '\n') false).take 5

/-! ## `ChatService._extract_summary_from_response` -/

/-- The `for line in lines` loop of `_extract_summary_from_response`, with the
`in_summary` flag as explicit state.  Returning `[]` models `break`. -/
def extractSummaryLoop : List String → Bool → List String
  | [], _ => []
  | line :: rest, inSummary =>
    if strHas (strLower line) "summary" && strHas line ":" then
      let tail := pyStrip ((pySplit line ':').getD 1 "")
      if !(strIsEmpty tail) then tail :: extractSummaryLoop rest true
      else extractSummaryLoop rest true
    else if inSummary then
      if !(strIsEmpty (pyStrip line)) && !(startsAny (pyStrip line) ["Key", "Important", "Main"]) then
        pyStrip line :: extractSummaryLoop rest true
      else if startsAny (pyStrip line) ["Key", "Important", "Main"] then
        []
      else
        extractSummaryLoop rest true
    else
      extractSummaryLoop rest false

/-- Model of `ChatService._extract_summary_from_response(response)`. -/
def extract_summary_from_response (response : String) : String :=
  let s := pyStrip (pyJoin " " (extractSummaryLoop (pySplit response '\n') false))
  if strIsEmpty s then "Conversation summary unavailable" else s

/-! ## `ChatService._extract_sources_referenced` -/

/-- Model of `ChatService._extract_sources_referenced(response, context)`: the `context`
argument is unused by the source, so it is omitted here.  The six category
checks append their labels in the source's fixed order. -/
def extract_sources_referenced (response : String) : List String :=
  let rl := strLower response
  let hasAny := fun (ws : List String) => ws.any (fun w => strHas rl w)
  (if hasAny ["score", "scoring", "rating"] then ["IPO Scores"] else []) ++
  (if hasAny ["financial", "revenue", "profit", "funding"] then ["Financial Highlights"] else []) ++
  (if hasAny ["risk", "concern", "weakness"] then ["Risk Assessment"] else []) ++
  (if hasAny ["strength", "advantage", "positive"] then ["Strengths Analysis"] else []) ++
  (if hasAny ["recommendation", "suggest", "should"] then ["Recommendations"] else []) ++
  (if hasAny ["competitive", "market", "industry"] then ["Market Analysis"] else [])

/-! ## `IPOAnalyzer` scoring -/

/-- One entry of `IPOAnalyzer.criteria_definitions`. -/
structure CriterionDef where
  name : String
  description : String
  keywords : List String
deriving DecidableEq

/-- Model of `IPOAnalyzer.criteria_definitions`. -/
def criteria_definitions : List CriterionDef :=
  [⟨"Basic Company Info", "Company background, founding details, and key information",
    ["company", "founded", "team", "background", "history"]⟩,
   ⟨"Mission & Core Business", "Business model clarity and strategic focus",
    ["mission", "business model", "value proposition", "strategy"]⟩,
   ⟨"Defensibility / IP / MOAT", "Competitive advantages and intellectual property",
    ["competitive advantage", "ip", "patent", "moat", "differentiation"]⟩,
   ⟨"Regulatory Approvals & Compliance", "Industry compliance and regulatory readiness",
    ["regulatory", "compliance", "license", "approval", "legal"]⟩,
   ⟨"Commercial Traction & Validation", "Market validation and customer traction",
    ["traction", "customers", "revenue", "growth", "validation"]⟩,
   ⟨"Segment-level Unit Economics", "Financial metrics and unit economics analysis",
    ["unit economics", "cac", "ltv", "margins", "profitability"]⟩,
   ⟨"Equity Cap Table", "Ownership structure and equity distribution",
    ["equity", "cap table", "ownership", "shares", "dilution"]⟩,
   ⟨"Key Risks & Information Gaps", "Risk assessment and information completeness",
    ["risks", "challenges", "gaps", "threats", "weaknesses"]⟩]

/-- The `keyword_count` computed by `IPOAnalyzer._estimate_criterion_score`. -/
def criterionKeywordCount (text : String) (c : CriterionDef) : Nat :=
  (c.keywords.filter (fun k => strHas (strLower text) k)).length

/-- Model of `IPOAnalyzer._estimate_criterion_score(text, criterion)` with the
`random.uniform(-0.5, 1.5)` draw made an explicit `jitter` argument. -/
def estimate_criterion_score (text : String) (c : CriterionDef) (jitter : ℚ) : ℚ :=
  let base : ℚ := (min (criterionKeywordCount text c * 2) 8 : ℕ)
  max 0 (min 10 (base + jitter))

/-- The `for criterion in self.criteria_definitions` loop of
`IPOAnalyzer._fallback_analysis`, scoring each criterion in turn; the random
draw of iteration `i` is supplied by `jit i`. -/
def fallbackScoresLoop (text : String) (jit : ℕ → ℚ) : ℕ → List CriterionDef → List ℚ
  | _, [] => []
  | i, c :: rest => estimate_criterion_score text c (jit i) :: fallbackScoresLoop text jit (i + 1) rest

/-- The per-criterion scores built by `IPOAnalyzer._fallback_analysis`. -/
def fallback_criterion_scores (text : String) (jit : ℕ → ℚ) : List ℚ :=
  fallbackScoresLoop text jit 0 criteria_definitions

/-- The `overall_score` of `IPOAnalyzer._fallback_analysis`:
`sum(c.score for c in criterion_scores) * 10 / len(criterion_scores)`. -/
def fallback_overall (scores : List ℚ) : ℚ :=
  scores.sum * 10 / scores.length

/-- Model of `IPOAnalyzer._determine_readiness_level(score)`. -/
def determine_readiness_level (score : ℚ) : String :=
  if score ≥ 86 then "Highly Ready"
  else if score ≥ 66 then "Ready"
  else if score ≥ 41 then "Developing"
  else "Not Ready"

/-! ## Chat data model (`backend/app/models/chat_models.py`) -/

/-- Model of `MessageRole`. -/
inductive MessageRole where
  | user
  | assistant
  | system
deriving DecidableEq

/-- Model of `ChatMessage`; `datetime` timestamps are modelled as `Nat`. -/
structure ChatMessage where
  id : String
  role : MessageRole
  content : String
  timestamp : Nat
  analysis_id : Option String
deriving DecidableEq

/-- Model of `ConversationSummary`. -/
structure ConversationSummary where
  key_topics : List String
  important_questions : List String
  key_insights : List String
  user_concerns : List String
  summary_text : String
  last_updated : Nat
deriving DecidableEq

/-- Model of `ChatContext`; the `Dict[str, Any]` fields, used only to build prompts,
are modelled as string maps. -/
structure ChatContext where
  analysis_id : String
  company_name : Option String
  full_text : String
  extracted_content : List (String × String)
  analysis_results : List (String × String)
  conversation_summary : Option ConversationSummary
deriving DecidableEq

/-- Model of `ChatRequest`. -/
structure ChatRequest where
  message : String
  analysis_id : String
  conversation_id : Option String
deriving DecidableEq

/-- Model of `ChatResponse`. -/
structure ChatResponse where
  message_id : String
  content : String
  timestamp : Nat
  conversation_id : String
  analysis_id : String
  sources_referenced : List String
deriving DecidableEq

/-- Model of `ConversationHistory`. -/
structure ConversationHistory where
  conversation_id : String
  analysis_id : String
  messages : List ChatMessage
  summary : Option ConversationSummary
  created_at : Nat
  updated_at : Nat
deriving DecidableEq

/-- The mutable fields of `ChatService`: `self.conversations` and
`self.chat_contexts`, as association lists. -/
structure ChatServiceState where
  conversations : List (String × ConversationHistory)
  chat_contexts : List (String × ChatContext)
deriving DecidableEq

/-- Dictionary lookup `m.get(key)` / `key in m` on the association-list model. -/
def lookupA {α : Type} : List (String × α) → String → Option α
  | [], _ => none
  | (k, v) :: rest, key => if k = key then some v else lookupA rest key

/-- Dictionary assignment `m[key] = v` on the association-list model. -/
def insertA {α : Type} : List (String × α) → String → α → List (String × α)
  | [], key, v => [(key, v)]
  | (k, w) :: rest, key, v =>
    if k = key then (key, v) :: rest else (k, w) :: insertA rest key v

/-! ## `ChatService` operations -/

/-- The per-call oracle: fresh uuid4 strings, `datetime.now()`, and the
outcomes of the two external LLM calls (`.error ()` models a raised
exception; `.ok txt` models a response whose `.text` is `txt`). -/
structure ChatOracle where
  fresh_conv_id : String
  user_msg_id : String
  asst_msg_id : String
  reply_llm : Except Unit (Option String)
  summary_llm : Except Unit (Option String)
  now : Nat

/-- Model of `ChatService._generate_response`: everything feeding the prompt is
irrelevant to the returned string, which depends only on the LLM outcome.
On exception the fixed apology string is returned. -/
def generate_response (llm : Except Unit (Option String)) : String :=
  match llm with
  | .error _ =>
      "I apologize, but I encountered an error while processing your question. Please try again."
  | .ok t =>
    match t with
    | some s =>
      if strIsEmpty s then "I apologize, but I couldn't generate a response." else pyStrip s
    | none => "I apologize, but I couldn't generate a response."

/-- Model of `ChatService._update_conversation_summary`: on LLM exception, the fixed
"unavailable" summary with default (empty) list fields and a fresh timestamp;
otherwise the parsed summary of the reply text. -/
def update_conversation_summary (llm : Except Unit (Option String)) (now : Nat) :
    ConversationSummary :=
  match llm with
  | .error _ =>
      { key_topics := [], important_questions := [], key_insights := [], user_concerns := [],
        summary_text := "Summary unavailable due to processing error", last_updated := now }
  | .ok t =>
    let response_text := pyStrip (t.getD "")
    { key_topics := extract_list_from_response response_text "Key topics",
      important_questions := extract_list_from_response response_text "Important questions",
      key_insights := extract_list_from_response response_text "Key insights",
      user_concerns := extract_list_from_response response_text "user concerns",
      summary_text := extract_summary_from_response response_text,
      last_updated := now }

/-- The conversation id used by `ChatService.chat`:
`request.conversation_id or str(uuid.uuid4())`. -/
def chatConvId (req : ChatRequest) (o : ChatOracle) : String :=
  match req.conversation_id with
  | some c => c
  | none => o.fresh_conv_id

/-- The conversation `ChatService.chat` operates on: the stored one, or the
fresh empty `ConversationHistory` it creates (and stores) when absent. -/
def chatConv0 (s : ChatServiceState) (req : ChatRequest) (o : ChatOracle) :
    ConversationHistory :=
  match lookupA s.conversations (chatConvId req o) with
  | some c => c
  | none =>
      { conversation_id := chatConvId req o, analysis_id := req.analysis_id,
        messages := [], summary := none, created_at := o.now, updated_at := o.now }

/-- Result of one `ChatService.chat` call: the new service state, the returned
response (or the raised `ValueError`, as `.error`), and whether the
conversation-summary recomputation ran (i.e. whether its LLM call was made). -/
structure ChatOutcome where
  state : ChatServiceState
  result : Except String ChatResponse
  summaryRecomputed : Bool

/-- Model of `ChatService.chat(request)`.  The source's outer `try` re-raises the same
exception, so it adds nothing; the only exception raised is the `ValueError`
for a missing analysis context.  State mutations on the aliased conversation
object are modelled by storing the final conversation value. -/
def chat (s : ChatServiceState) (req : ChatRequest) (o : ChatOracle) : ChatOutcome :=
  let cid := chatConvId req o
  let conv0 := chatConv0 s req o
  match lookupA s.chat_contexts req.analysis_id with
  | none =>
      { state := { s with conversations := insertA s.conversations cid conv0 },
        result := .error ("No context found for analysis " ++ req.analysis_id),
        summaryRecomputed := false }
  | some _ctx =>
      let userMsg : ChatMessage :=
        ⟨o.user_msg_id, .user, req.message, o.now, some req.analysis_id⟩
      let msgs1 := conv0.messages ++ [userMsg]
      let doSummary : Bool := decide (msgs1.length > 6)
      let summary1 :=
        if doSummary then some (update_conversation_summary o.summary_llm o.now)
        else conv0.summary
      let content := generate_response o.reply_llm
      let asstMsg : ChatMessage :=
        ⟨o.asst_msg_id, .assistant, content, o.now, some req.analysis_id⟩
      let conv1 : ConversationHistory :=
        { conv0 with messages := msgs1 ++ [asstMsg], summary := summary1, updated_at := o.now }
      { state := { s with conversations := insertA s.conversations cid conv1 },
        result := .ok ⟨o.asst_msg_id, content, o.now, cid, req.analysis_id,
                       extract_sources_referenced content⟩,
        summaryRecomputed := doSummary }

/-- Model of `ChatService.get_conversation_history(conversation_id)`. -/
def get_conversation_history (s : ChatServiceState) (conversation_id : String) :
    Option ConversationHistory :=
  lookupA s.conversations conversation_id

/-- The HTTP status produced by the `/chat` endpoint (`chat_with_analysis` in
`main.py`): 200 on success; the `ValueError` (the only exception the model can
raise) is mapped to 404. -/
def chat_with_analysis_status (s : ChatServiceState) (req : ChatRequest) (o : ChatOracle) : Nat :=
  match (chat s req o).result with
  | .ok _ => 200
  | .error _ => 404

/-- The messages of conversation `cid` in state `s` (empty when absent). -/
def convMessagesOf (s : ChatServiceState) (cid : String) : List ChatMessage :=
  match lookupA s.conversations cid with
  | some c => c.messages
  | none => []

/-- Run `chat` once per element of `inputs` (message text and oracle), all on
conversation `cid` against analysis `aid`; return the final state and whether
every call returned successfully. -/
def chatN (s : ChatServiceState) (cid aid : String) :
    List (String × ChatOracle) → ChatServiceState × Bool
  | [] => (s, true)
  | (m, o) :: rest =>
    let out := chat s ⟨m, aid, some cid⟩ o
    let r := chatN out.state cid aid rest
    (r.1, (match out.result with | .ok _ => true | .error _ => false) && r.2)

/-- The `summaryRecomputed` flag of each successive `chat` call. -/
def chatFlags (s : ChatServiceState) (cid aid : String) :
    List (String × ChatOracle) → List Bool
  | [] => []
  | (m, o) :: rest =>
    let out := chat s ⟨m, aid, some cid⟩ o
    out.summaryRecomputed :: chatFlags out.state cid aid rest

/-! ## `/analyze-pdf` endpoint error handling (`main.py`) -/

/-- A raised exception in `analyze_pdf`: a `fastapi.HTTPException` carrying a
status and detail, or any other exception. -/
inductive PyExc where
  | http (status : Nat) (detail : String)
  | other (msg : String)
deriving DecidableEq

/-- The body of the `try` block of `analyze_pdf`: the filename check, the size
check, then the PDF processing and analysis (abstracted as `processing`, which
may raise).  Python's `or` short-circuit `not file.filename or not
file.filename.lower().endswith('.pdf')` is modelled on `Option String`. -/
def analyze_pdf_try (filename : Option String) (size : Nat)
    (processing : Except String Unit) : Except PyExc Unit := do
  if (match filename with
      | none => true
      | some f => !(strEnds (strLower f) ".pdf")) then
    throw (.http 400 "Only PDF files are supported")
  if size > 20 * 1024 * 1024 then
    throw (.http 400 "File size must be less than 20MB")
  match processing with
  | .ok _ => pure ()
  | .error m => throw (.other m)

/-- The HTTP status of the `/analyze-pdf` response.  The endpoint's
`except Exception` clause catches every exception — including the
`HTTPException(400)`s raised inside the `try`, since `fastapi.HTTPException`
is a subclass of `Exception` — and re-raises `HTTPException(500, ...)`. -/
def analyze_pdf_status (filename : Option String) (size : Nat)
    (processing : Except String Unit) : Nat :=
  match analyze_pdf_try filename size processing with
  | .ok _ => 200
  | .error _ => 500

/-! ## Spec-side definitions and concrete fixtures -/

/-- Modelled from the spec: the expected role pattern of a conversation after
`n` chat calls — `n` blocks of one user message followed by one assistant
message. -/
def altRoles : Nat → List MessageRole
  | 0 => []
  | n + 1 => MessageRole.user :: MessageRole.assistant :: altRoles n

/-- The keywords of the sources-referenced categories other than "revenue"
and "risk" (used to state claim C7's "no other keyword matches" side
condition). -/
def otherSourceKeywords : List String :=
  ["score", "scoring", "rating", "financial", "profit", "funding",
   "concern", "weakness", "strength", "advantage", "positive",
   "recommendation", "suggest", "should", "competitive", "market", "industry"]

/-- The sample LLM summary reply of claim C2. -/
def sampleSummaryReply : String :=
  "Key topics:\n- Alpha\n- Beta\nImportant questions:\n- Gamma"

/-- A stored analysis context for analysis id "a1". -/
def ctxA : ChatContext := ⟨"a1", none, "", [], [], none⟩

/-- A service state holding the context for "a1" and no conversations. -/
def stateWithCtx : ChatServiceState := ⟨[], [("a1", ctxA)]⟩

/-- A service state holding no contexts and no conversations. -/
def stateNoCtx : ChatServiceState := ⟨[], []⟩

/-- A chat request for analysis "a1" on conversation "c1". -/
def reqA : ChatRequest := ⟨"q", "a1", some "c1"⟩

/-- An oracle whose reply LLM call succeeds and whose summary LLM call raises. -/
def oraclePlain : ChatOracle := ⟨"f", "u", "m", .ok (some "hi"), .error (), 0⟩

/-- An oracle whose two LLM calls both raise. -/
def oracleFailing : ChatOracle := ⟨"f", "u", "m", .error (), .error (), 0⟩

/-- Five identical chat-call inputs. -/
def fiveCalls : List (String × ChatOracle) := List.replicate 5 ("q", oraclePlain)

/-- Two identical chat-call inputs. -/
def twoCalls : List (String × ChatOracle) := List.replicate 2 ("q", oraclePlain)

/-- A user message fixture. -/
def msgX : ChatMessage := ⟨"i", .user, "x", 0, some "a1"⟩

/-- A conversation that already holds six messages. -/
def convSix : ConversationHistory := ⟨"c1", "a1", List.replicate 6 msgX, none, 0, 0⟩

/-- A service state holding the context for "a1" and the six-message
conversation "c1". -/
def stateSix : ChatServiceState := ⟨[("c1", convSix)], [("a1", ctxA)]⟩

/-- The first criterion definition, used as a concrete test criterion. -/
def cBasic : CriterionDef :=
  ⟨"Basic Company Info", "Company background, founding details, and key information",
   ["company", "founded", "team", "background", "history"]⟩

/-! ## Helper lemmas -/

theorem lookupA_insertA_self {α : Type} (m : List (String × α)) (k : String) (v : α) :
    lookupA (insertA m k v) k = some v := by
  induction m with
  | nil => simp [insertA, lookupA]
  | cons p rest ih =>
    obtain ⟨k1, v1⟩ := p
    by_cases h : k1 = k
    · simp [insertA, lookupA, h]
    · simp [insertA, lookupA, h, ih]

theorem lookupA_insertA_ne {α : Type} (m : List (String × α)) (k : String) (v : α)
    (k2 : String) (h : k2 ≠ k) : lookupA (insertA m k v) k2 = lookupA m k2 := by
  have hk : ¬ k = k2 := fun e => h e.symm
  induction m with
  | nil =>
    simp only [insertA, lookupA]
    rw [if_neg hk]
  | cons p rest ih =>
    obtain ⟨k1, v1⟩ := p
    simp only [insertA]
    by_cases h1 : k1 = k
    · rw [if_pos h1]
      simp only [lookupA]
      rw [if_neg hk, if_neg (fun e => hk (h1 ▸ e))]
    · rw [if_neg h1]
      simp only [lookupA]
      by_cases h2 : k1 = k2
      · rw [if_pos h2, if_pos h2]
      · rw [if_neg h2, if_neg h2, ih]

theorem chatConv0_messages (s : ChatServiceState) (req : ChatRequest) (o : ChatOracle) :
    (chatConv0 s req o).messages = convMessagesOf s (chatConvId req o) := by
  unfold chatConv0 convMessagesOf
  cases lookupA s.conversations (chatConvId req o) <;> rfl

theorem chat_step (s : ChatServiceState) (req : ChatRequest) (o : ChatOracle)
    (ctx : ChatContext) (h : lookupA s.chat_contexts req.analysis_id = some ctx) :
    (chat s req o).result = .ok ⟨o.asst_msg_id, generate_response o.reply_llm, o.now,
        chatConvId req o, req.analysis_id,
        extract_sources_referenced (generate_response o.reply_llm)⟩ ∧
    (chat s req o).state.chat_contexts = s.chat_contexts ∧
    convMessagesOf (chat s req o).state (chatConvId req o) =
      convMessagesOf s (chatConvId req o) ++
        [⟨o.user_msg_id, .user, req.message, o.now, some req.analysis_id⟩,
         ⟨o.asst_msg_id, .assistant, generate_response o.reply_llm, o.now, some req.analysis_id⟩] := by
  unfold chat
  rw [h]
  refine ⟨rfl, rfl, ?_⟩
  simp only [convMessagesOf]
  rw [lookupA_insertA_self]
  simp only [List.append_assoc, List.cons_append, List.nil_append]
  exact congrArg (fun l => l ++ _) (chatConv0_messages s req o)

theorem altRoles_length (n : Nat) : (altRoles n).length = 2 * n := by
  induction n with
  | zero => rfl
  | succ k ih => simp [altRoles, ih]; ring

theorem chatN_invariant (inputs : List (String × ChatOracle)) (s : ChatServiceState)
    (cid aid : String) (ctx : ChatContext) (hctx : lookupA s.chat_contexts aid = some ctx) :
    (chatN s cid aid inputs).2 = true ∧
    (convMessagesOf (chatN s cid aid inputs).1 cid).map ChatMessage.role =
      (convMessagesOf s cid).map ChatMessage.role ++ altRoles inputs.length := by
  induction inputs generalizing s with
  | nil => simp [chatN, altRoles]
  | cons p rest ih =>
    obtain ⟨m, o⟩ := p
    obtain ⟨hres, hctxs, hmsgs⟩ := chat_step s ⟨m, aid, some cid⟩ o ctx hctx
    simp only [chatConvId] at hmsgs
    have hctx2 : lookupA (chat s ⟨m, aid, some cid⟩ o).state.chat_contexts aid = some ctx := by
      rw [hctxs]; exact hctx
    obtain ⟨ihb, ihm⟩ := ih (chat s ⟨m, aid, some cid⟩ o).state hctx2
    constructor
    · simp [chatN, hres, ihb]
    · simp only [chatN]
      rw [ihm, hmsgs]
      simp [altRoles, List.map_append]

/-! ## Claim C1 -/

/-- C1, counterexample.  On a conversation with a stored context, five
successive chat calls produce the summary-recomputation flags
`[false, false, false, true, true]`: the fourth call (message count 7 after
appending the user message, the first count exceeding 6) recomputes, but so
does the fifth call, whose message count after appending the user message is
9 — neither the first crossing of 6 nor a multiple of 6. -/
theorem chat_summary_flags_counterexample :
    chatFlags stateWithCtx "c1" "a1" fiveCalls = [false, false, false, true, true] ∧
    (convMessagesOf (chatN stateWithCtx "c1" "a1" (fiveCalls.take 4)).1 "c1").length + 1 = 9 ∧
    ¬ (6 ∣ 9) :=
  ⟨by decide, by decide, by decide⟩

/-- C1, amended.  A chat call with a stored analysis context recomputes the
conversation summary exactly when the message count after appending the user
message exceeds 6 — that is, on every call from the first crossing onward,
not only at multiple-of-6 boundaries. -/
theorem chat_summary_recompute_iff_gt_six (s : ChatServiceState) (req : ChatRequest)
    (o : ChatOracle) (ctx : ChatContext)
    (h : lookupA s.chat_contexts req.analysis_id = some ctx) :
    (chat s req o).summaryRecomputed = true ↔
      6 < (convMessagesOf s (chatConvId req o)).length + 1 := by
  simp only [chat, h]
  rw [decide_eq_true_iff]
  simp [List.length_append, chatConv0_messages s req o]

/-- Witness for C1's amended theorem at a concrete state. -/
theorem chat_summary_recompute_iff_gt_six_witness :
    lookupA stateWithCtx.chat_contexts reqA.analysis_id = some ctxA ∧
    ((chat stateWithCtx reqA oraclePlain).summaryRecomputed = true ↔
      6 < (convMessagesOf stateWithCtx (chatConvId reqA oraclePlain)).length + 1) :=
  ⟨by decide, chat_summary_recompute_iff_gt_six stateWithCtx reqA oraclePlain ctxA (by decide)⟩

/-! ## Claim C2 -/

/-- C2, counterexample.  On the claimed input the heuristic returns
`["Alpha", "Beta", "Gamma"]` for section "Key topics", not the claimed
`["Alpha", "Beta"]`: the line "Important questions:" starts with a stop word,
so the loop skips it without ending the section and goes on to collect
"Gamma". -/
theorem extract_list_key_topics_counterexample :
    extract_list_from_response sampleSummaryReply "Key topics" ≠ ["Alpha", "Beta"] ∧
    extract_list_from_response sampleSummaryReply "Key topics" = ["Alpha", "Beta", "Gamma"] :=
  ⟨by decide, by decide⟩

/-- C2, amended.  On the sample input the heuristic returns
`["Alpha", "Beta", "Gamma"]` for "Key topics" and `["Gamma"]` for
"Important questions"; the result is capped at 5 items; and collection for a
section stops at a non-blank line that is not a list item only when that line
does not start with one of the stop words "Key", "Important", "Main",
"Summary" (stop-word lines are skipped, not terminators). -/
theorem extract_list_heuristic_amended :
    extract_list_from_response sampleSummaryReply "Key topics" = ["Alpha", "Beta", "Gamma"] ∧
    extract_list_from_response sampleSummaryReply "Important questions" = ["Gamma"] ∧
    (∀ response sec : String, (extract_list_from_response response sec).length ≤ 5) ∧
    (∀ sec line : String, ∀ rest : List String,
      strHas (strLower line) (strLower sec) = false →
      strIsEmpty (pyStrip line) = false →
      startsAny (pyStrip line) listItemMarks = false →
      startsAny (pyStrip line) sectionStopWords = false →
      extractListLoop sec (line :: rest) true = []) := by
  refine ⟨by decide, by decide, ?_, ?_⟩
  · intro response sec
    unfold extract_list_from_response
    rw [List.length_take]
    exact min_le_left _ _
  · intro sec line rest h1 h2 h3 h4
    simp [extractListLoop, h1, h2, h3, h4]

/-- Witness for C2's amended theorem at a concrete line. -/
theorem extract_list_heuristic_amended_witness :
    (extract_list_from_response sampleSummaryReply "Key topics").length ≤ 5 ∧
    extractListLoop "Key topics" ["Other text", "- ignored"] true = [] :=
  ⟨extract_list_heuristic_amended.2.2.1 sampleSummaryReply "Key topics",
   extract_list_heuristic_amended.2.2.2 "Key topics" "Other text" ["- ignored"]
     (by decide) (by decide) (by decide) (by decide)⟩

/-! ## Claim C3 -/

/-- C3 (the code as it behaves).  A non-`.pdf` filename, an oversized file and
a missing filename all produce HTTP 500, not the claimed 400: the endpoint's
`except Exception` clause catches the explicitly raised `HTTPException(400)`s
(`HTTPException` subclasses `Exception`) and re-raises a 500.  No input at all
can produce a 400 response. -/
theorem analyze_pdf_validation_gives_500 :
    analyze_pdf_status (some "deck.txt") 0 (.ok ()) = 500 ∧
    analyze_pdf_status (some "slides.pdf") (20 * 1024 * 1024 + 1) (.ok ()) = 500 ∧
    analyze_pdf_status none 0 (.ok ()) = 500 ∧
    (∀ (filename : Option String) (size : Nat) (processing : Except String Unit),
      analyze_pdf_status filename size processing ≠ 400) := by
  refine ⟨by decide, by decide, by decide, ?_⟩
  intro filename size processing
  unfold analyze_pdf_status
  cases analyze_pdf_try filename size processing <;> simp

/-! ## Claim C4 -/

/-- C4.  A chat call whose analysisId has no stored context fails with the
not-found `ValueError` (mapped to HTTP 404 by the `/chat` endpoint) and
appends no message to any conversation's message list. -/
theorem chat_missing_context_error_no_messages (s : ChatServiceState) (req : ChatRequest)
    (o : ChatOracle) (h : lookupA s.chat_contexts req.analysis_id = none) :
    (chat s req o).result = .error ("No context found for analysis " ++ req.analysis_id) ∧
    chat_with_analysis_status s req o = 404 ∧
    ∀ cid : String, convMessagesOf (chat s req o).state cid = convMessagesOf s cid := by
  refine ⟨by simp only [chat, h], ?_, ?_⟩
  · unfold chat_with_analysis_status
    simp only [chat, h]
  · intro cid
    simp only [chat, h, convMessagesOf]
    by_cases hc : cid = chatConvId req o
    · subst hc
      rw [lookupA_insertA_self]
      have h0 := chatConv0_messages s req o
      unfold convMessagesOf at h0
      exact h0
    · rw [lookupA_insertA_ne _ _ _ _ hc]

/-- Witness for C4 at a concrete state with no stored context. -/
theorem chat_missing_context_error_no_messages_witness :
    lookupA stateNoCtx.chat_contexts reqA.analysis_id = none ∧
    ((chat stateNoCtx reqA oraclePlain).result =
        .error ("No context found for analysis " ++ reqA.analysis_id) ∧
     chat_with_analysis_status stateNoCtx reqA oraclePlain = 404 ∧
     ∀ cid : String, convMessagesOf (chat stateNoCtx reqA oraclePlain).state cid =
       convMessagesOf stateNoCtx cid) :=
  ⟨by decide, chat_missing_context_error_no_messages stateNoCtx reqA oraclePlain (by decide)⟩

/-! ## Claim C5 -/

/-- C5.  With a stored analysis context, after N chat calls on one (initially
absent) conversation every call has succeeded and the message list holds
exactly 2N entries whose roles alternate user/assistant starting with user:
each call appends exactly one user message followed by one assistant
message. -/
theorem chatN_alternating_messages (inputs : List (String × ChatOracle))
    (s : ChatServiceState) (cid aid : String) (ctx : ChatContext)
    (hctx : lookupA s.chat_contexts aid = some ctx)
    (hconv : lookupA s.conversations cid = none) :
    (chatN s cid aid inputs).2 = true ∧
    (convMessagesOf (chatN s cid aid inputs).1 cid).map ChatMessage.role =
      altRoles inputs.length ∧
    (convMessagesOf (chatN s cid aid inputs).1 cid).length = 2 * inputs.length := by
  obtain ⟨hb, hm⟩ := chatN_invariant inputs s cid aid ctx hctx
  have h0 : convMessagesOf s cid = [] := by simp [convMessagesOf, hconv]
  rw [h0] at hm
  simp only [List.map_nil, List.nil_append] at hm
  refine ⟨hb, hm, ?_⟩
  have hl := congrArg List.length hm
  rwa [List.length_map, altRoles_length] at hl

/-- Witness for C5: two concrete chat calls on a fresh conversation. -/
theorem chatN_alternating_messages_witness :
    lookupA stateWithCtx.chat_contexts "a1" = some ctxA ∧
    lookupA stateWithCtx.conversations "c1" = none ∧
    (chatN stateWithCtx "c1" "a1" twoCalls).2 = true ∧
    (convMessagesOf (chatN stateWithCtx "c1" "a1" twoCalls).1 "c1").map ChatMessage.role =
      altRoles twoCalls.length ∧
    (convMessagesOf (chatN stateWithCtx "c1" "a1" twoCalls).1 "c1").length = 2 * twoCalls.length :=
  ⟨by decide, by decide,
   (chatN_alternating_messages twoCalls stateWithCtx "c1" "a1" ctxA (by decide) (by decide)).1,
   (chatN_alternating_messages twoCalls stateWithCtx "c1" "a1" ctxA (by decide) (by decide)).2.1,
   (chatN_alternating_messages twoCalls stateWithCtx "c1" "a1" ctxA (by decide) (by decide)).2.2⟩

/-! ## Claim C6 -/

/-- C6.  LLM failures never propagate out of a chat call with a valid context:
a failed reply generation yields the fixed apology string as assistant
content; a failed summary recomputation stores the summary object whose text
is the fixed "unavailable" string, whose list fields are empty and whose
timestamp is fresh; and the chat call itself still returns successfully. -/
theorem chat_llm_failure_handling :
    generate_response (.error ()) =
      "I apologize, but I encountered an error while processing your question. Please try again." ∧
    (∀ now : Nat, update_conversation_summary (.error ()) now =
      ⟨[], [], [], [], "Summary unavailable due to processing error", now⟩) ∧
    (∀ (s : ChatServiceState) (req : ChatRequest) (o : ChatOracle) (ctx : ChatContext),
      lookupA s.chat_contexts req.analysis_id = some ctx → o.reply_llm = .error () →
      ∃ r, (chat s req o).result = Except.ok r ∧
        r.content =
          "I apologize, but I encountered an error while processing your question. Please try again.") ∧
    (∀ (s : ChatServiceState) (req : ChatRequest) (o : ChatOracle) (ctx : ChatContext),
      lookupA s.chat_contexts req.analysis_id = some ctx → o.summary_llm = .error () →
      (chat s req o).summaryRecomputed = true →
      ∃ conv, get_conversation_history (chat s req o).state (chatConvId req o) = some conv ∧
        conv.summary = some ⟨[], [], [], [], "Summary unavailable due to processing error",
                             o.now⟩) := by
  refine ⟨rfl, fun now => rfl, ?_, ?_⟩
  · intro s req o ctx h hrep
    obtain ⟨hres, _, _⟩ := chat_step s req o ctx h
    exact ⟨_, hres, by rw [hrep]; rfl⟩
  · intro s req o ctx h hsum hflag
    simp only [chat, h] at hflag ⊢
    unfold get_conversation_history
    simp only [chat, h]
    rw [lookupA_insertA_self]
    refine ⟨_, rfl, ?_⟩
    simp only [hflag, if_true]
    rw [hsum]
    rfl

/-- Witness for C6: a six-message conversation triggers the summary path, both
LLM calls fail, and the call still succeeds with the fixed strings. -/
theorem chat_llm_failure_handling_witness :
    lookupA stateSix.chat_contexts reqA.analysis_id = some ctxA ∧
    oracleFailing.reply_llm = .error () ∧
    oracleFailing.summary_llm = .error () ∧
    (chat stateSix reqA oracleFailing).summaryRecomputed = true ∧
    (∃ r, (chat stateSix reqA oracleFailing).result = Except.ok r ∧
      r.content =
        "I apologize, but I encountered an error while processing your question. Please try again.") ∧
    (∃ conv, get_conversation_history (chat stateSix reqA oracleFailing).state
        (chatConvId reqA oracleFailing) = some conv ∧
      conv.summary = some ⟨[], [], [], [], "Summary unavailable due to processing error",
                           oracleFailing.now⟩) :=
  ⟨by decide, rfl, rfl, by decide,
   chat_llm_failure_handling.2.2.1 stateSix reqA oracleFailing ctxA (by decide) rfl,
   chat_llm_failure_handling.2.2.2 stateSix reqA oracleFailing ctxA (by decide) rfl (by decide)⟩

/-! ## Claim C7 -/

/-- C7.  Source attribution is fixed-order, case-insensitive keyword matching:
a reply containing "revenue" and "risk" and no other category keyword maps to
exactly `["Financial Highlights", "Risk Assessment"]` in that order, and a
reply matching no keyword maps to the empty list. -/
theorem extract_sources_keyword_matching :
    (∀ r : String, strHas (strLower r) "revenue" = true → strHas (strLower r) "risk" = true →
      (∀ w ∈ otherSourceKeywords, strHas (strLower r) w = false) →
      extract_sources_referenced r = ["Financial Highlights", "Risk Assessment"]) ∧
    (∀ r : String, strHas (strLower r) "revenue" = false → strHas (strLower r) "risk" = false →
      (∀ w ∈ otherSourceKeywords, strHas (strLower r) w = false) →
      extract_sources_referenced r = []) := by
  constructor
  · intro r hrev hrisk habs
    simp only [otherSourceKeywords, List.mem_cons, List.not_mem_nil, or_false,
      forall_eq_or_imp, forall_eq] at habs
    simp [extract_sources_referenced, List.any_cons, List.any_nil, hrev, hrisk, habs]
  · intro r hrev hrisk habs
    simp only [otherSourceKeywords, List.mem_cons, List.not_mem_nil, or_false,
      forall_eq_or_imp, forall_eq] at habs
    simp [extract_sources_referenced, List.any_cons, List.any_nil, hrev, hrisk, habs]

/-- Witness for C7 at two concrete replies. -/
theorem extract_sources_keyword_matching_witness :
    (strHas (strLower "revenue and risk") "revenue" = true ∧
     strHas (strLower "revenue and risk") "risk" = true ∧
     (∀ w ∈ otherSourceKeywords, strHas (strLower "revenue and risk") w = false) ∧
     extract_sources_referenced "revenue and risk" = ["Financial Highlights", "Risk Assessment"]) ∧
    (strHas (strLower "nothing here at all") "revenue" = false ∧
     strHas (strLower "nothing here at all") "risk" = false ∧
     (∀ w ∈ otherSourceKeywords, strHas (strLower "nothing here at all") w = false) ∧
     extract_sources_referenced "nothing here at all" = []) :=
  ⟨⟨by decide, by decide, by decide,
    extract_sources_keyword_matching.1 "revenue and risk" (by decide) (by decide) (by decide)⟩,
   ⟨by decide, by decide, by decide,
    extract_sources_keyword_matching.2 "nothing here at all" (by decide) (by decide) (by decide)⟩⟩

/-! ## Claim C8 -/

/-- C8.  The readiness level is a fixed threshold ladder, inclusive on the
lower edge of each band: 86 and above is "Highly Ready", [66, 86) is "Ready",
[41, 66) is "Developing", below 41 is "Not Ready"; in particular 90, 66, 41
and 10 map to the four labels respectively. -/
theorem readiness_level_threshold_ladder :
    (∀ q : ℚ, 86 ≤ q → determine_readiness_level q = "Highly Ready") ∧
    (∀ q : ℚ, 66 ≤ q → q < 86 → determine_readiness_level q = "Ready") ∧
    (∀ q : ℚ, 41 ≤ q → q < 66 → determine_readiness_level q = "Developing") ∧
    (∀ q : ℚ, q < 41 → determine_readiness_level q = "Not Ready") ∧
    determine_readiness_level 90 = "Highly Ready" ∧
    determine_readiness_level 66 = "Ready" ∧
    determine_readiness_level 41 = "Developing" ∧
    determine_readiness_level 10 = "Not Ready" := by
  have h1 : ∀ q : ℚ, 86 ≤ q → determine_readiness_level q = "Highly Ready" := by
    intro q h
    unfold determine_readiness_level
    rw [if_pos h]
  have h2 : ∀ q : ℚ, 66 ≤ q → q < 86 → determine_readiness_level q = "Ready" := by
    intro q h h86
    unfold determine_readiness_level
    rw [if_neg (not_le.mpr h86), if_pos h]
  have h3 : ∀ q : ℚ, 41 ≤ q → q < 66 → determine_readiness_level q = "Developing" := by
    intro q h h66
    unfold determine_readiness_level
    rw [if_neg (not_le.mpr (h66.trans_le (by norm_num))), if_neg (not_le.mpr h66), if_pos h]
  have h4 : ∀ q : ℚ, q < 41 → determine_readiness_level q = "Not Ready" := by
    intro q h
    unfold determine_readiness_level
    rw [if_neg (not_le.mpr (h.trans_le (by norm_num))),
        if_neg (not_le.mpr (h.trans_le (by norm_num))), if_neg (not_le.mpr h)]
  exact ⟨h1, h2, h3, h4, h1 90 (by norm_num), h2 66 (by norm_num) (by norm_num),
         h3 41 (by norm_num) (by norm_num), h4 10 (by norm_num)⟩

/-- Witness for C8 at the four concrete scores of the claim. -/
theorem readiness_level_threshold_ladder_witness :
    ((86:ℚ) ≤ 90 ∧ determine_readiness_level 90 = "Highly Ready") ∧
    ((66:ℚ) ≤ 66 ∧ (66:ℚ) < 86 ∧ determine_readiness_level 66 = "Ready") ∧
    ((41:ℚ) ≤ 41 ∧ (41:ℚ) < 66 ∧ determine_readiness_level 41 = "Developing") ∧
    ((10:ℚ) < 41 ∧ determine_readiness_level 10 = "Not Ready") :=
  ⟨⟨by norm_num, readiness_level_threshold_ladder.1 90 (by norm_num)⟩,
   ⟨by norm_num, by norm_num, readiness_level_threshold_ladder.2.1 66 (by norm_num) (by norm_num)⟩,
   ⟨by norm_num, by norm_num,
    readiness_level_threshold_ladder.2.2.1 41 (by norm_num) (by norm_num)⟩,
   ⟨by norm_num, readiness_level_threshold_ladder.2.2.2.1 10 (by norm_num)⟩⟩

/-! ## Claim C9 -/

/-- C9.  Fallback criterion scoring is `min(keywordMatches * 2, 8)` plus the
jitter, clamped to [0, 10]; with the jitter fixed at 0 a criterion with
exactly 3 keyword matches scores exactly 6; and the fallback overall score is
the mean of the 8 criterion scores times 10. -/
theorem fallback_scoring_properties :
    (∀ (text : String) (c : CriterionDef) (jitter : ℚ),
      criterionKeywordCount text c = 3 → jitter = 0 →
      estimate_criterion_score text c jitter = 6) ∧
    (∀ (text : String) (c : CriterionDef) (jitter : ℚ),
      0 ≤ estimate_criterion_score text c jitter ∧ estimate_criterion_score text c jitter ≤ 10) ∧
    (∀ (text : String) (jit : ℕ → ℚ), (fallback_criterion_scores text jit).length = 8) ∧
    (∀ (text : String) (jit : ℕ → ℚ),
      fallback_overall (fallback_criterion_scores text jit) =
        (fallback_criterion_scores text jit).sum / 8 * 10) := by
  have hlen : ∀ (text : String) (jit : ℕ → ℚ),
      (fallback_criterion_scores text jit).length = 8 := by
    intro text jit
    simp [fallback_criterion_scores, criteria_definitions, fallbackScoresLoop]
  refine ⟨?_, ?_, hlen, ?_⟩
  · intro text c jitter hc hj
    unfold estimate_criterion_score
    rw [hc, hj]
    rw [show min (3 * 2) 8 = 6 from rfl]
    push_cast
    rw [add_zero]
    rw [min_eq_right (by norm_num : (6:ℚ) ≤ 10), max_eq_right (by norm_num : (0:ℚ) ≤ 6)]
  · intro text c jitter
    refine ⟨le_max_left 0 _, max_le (by norm_num) (min_le_left 10 _)⟩
  · intro text jit
    unfold fallback_overall
    rw [hlen text jit]
    push_cast
    ring

/-- Witness for C9: a text with exactly three matches of the first criterion's
keywords, plus concrete bound, length and overall-score instances. -/
theorem fallback_scoring_properties_witness :
    criterionKeywordCount "company founded team" cBasic = 3 ∧
    estimate_criterion_score "company founded team" cBasic 0 = 6 ∧
    (0:ℚ) ≤ estimate_criterion_score "x" cBasic (3/2) ∧
    estimate_criterion_score "x" cBasic (3/2) ≤ 10 ∧
    (fallback_criterion_scores "x" (fun _ => 0)).length = 8 ∧
    fallback_overall (fallback_criterion_scores "x" (fun _ => 0)) =
      (fallback_criterion_scores "x" (fun _ => 0)).sum / 8 * 10 :=
  ⟨by decide,
   fallback_scoring_properties.1 "company founded team" cBasic 0 (by decide) rfl,
   (fallback_scoring_properties.2.1 "x" cBasic (3/2)).1,
   (fallback_scoring_properties.2.1 "x" cBasic (3/2)).2,
   fallback_scoring_properties.2.2.1 "x" (fun _ => 0),
   fallback_scoring_properties.2.2.2 "x" (fun _ => 0)⟩

/-! ## Claim C10 -/

/-- C10.  A chat call that fails for lack of an analysis context is not atomic
on the conversation store: with an unseen conversation id it still creates and
retains a fresh empty `ConversationHistory` bound to the unknown analysis id,
retrievable afterwards through `get_conversation_history`. -/
theorem chat_missing_context_creates_conversation (s : ChatServiceState) (req : ChatRequest)
    (o : ChatOracle)
    (hctx : lookupA s.chat_contexts req.analysis_id = none)
    (hconv : lookupA s.conversations (chatConvId req o) = none) :
    (chat s req o).result = .error ("No context found for analysis " ++ req.analysis_id) ∧
    get_conversation_history (chat s req o).state (chatConvId req o) =
      some ⟨chatConvId req o, req.analysis_id, [], none, o.now, o.now⟩ := by
  refine ⟨by simp only [chat, hctx], ?_⟩
  unfold get_conversation_history
  simp only [chat, hctx]
  rw [lookupA_insertA_self]
  unfold chatConv0
  rw [hconv]

/-- Witness for C10 at a concrete empty state. -/
theorem chat_missing_context_creates_conversation_witness :
    lookupA stateNoCtx.chat_contexts reqA.analysis_id = none ∧
    lookupA stateNoCtx.conversations (chatConvId reqA oraclePlain) = none ∧
    ((chat stateNoCtx reqA oraclePlain).result =
        .error ("No context found for analysis " ++ reqA.analysis_id) ∧
     get_conversation_history (chat stateNoCtx reqA oraclePlain).state
         (chatConvId reqA oraclePlain) =
       some ⟨chatConvId reqA oraclePlain, reqA.analysis_id, [], none,
             oraclePlain.now, oraclePlain.now⟩) :=
  ⟨by decide, by decide,
   chat_missing_context_creates_conversation stateNoCtx reqA oraclePlain (by decide) (by decide)⟩
